import Mathlib

/-!
Verification of the cpp-notes repository's demonstration functions.

Each definition is a shallow embedding of a C++ fragment from the
repository: `std::uint32_t` values are natural numbers (with a `< 2^32`
bound where the width matters), `int` values are integers with C++
truncated modulus (`Int.tmod`), `std::bitset<4>` values are natural
numbers below 16, and functions that print model their output as the
list of values written to standard output.
-/

namespace CppNotes

/-! ## Pixel-channel extraction (`printColorChannelsFromRGBA`)

The source masks, right-shifts, then casts to `std::uint8_t` (a
conversion modulo 2^8):

    const std::uint8_t red   { static_cast<std::uint8_t>((pixel & redBits) >> 24) };
    const std::uint8_t green { static_cast<std::uint8_t>((pixel & greenBits) >> 16) };
    const std::uint8_t blue  { static_cast<std::uint8_t>((pixel & blueBits) >> 8) };
    const std::uint8_t alpha { static_cast<std::uint8_t>(pixel & alphaBits) };
-/

def redBits : Nat := 0xFF000000
def greenBits : Nat := 0x00FF0000
def blueBits : Nat := 0x0000FF00
def alphaBits : Nat := 0x000000FF

/-- The `red` local of `printColorChannelsFromRGBA`; the final `% 2^8` is
the `static_cast<std::uint8_t>`. -/
def redChannel (pixel : Nat) : Nat := ((pixel &&& redBits) >>> 24) % 2^8

/-- The `green` local of `printColorChannelsFromRGBA`. -/
def greenChannel (pixel : Nat) : Nat := ((pixel &&& greenBits) >>> 16) % 2^8

/-- The `blue` local of `printColorChannelsFromRGBA`. -/
def blueChannel (pixel : Nat) : Nat := ((pixel &&& blueBits) >>> 8) % 2^8

/-- The `alpha` local of `printColorChannelsFromRGBA`. -/
def alphaChannel (pixel : Nat) : Nat := (pixel &&& alphaBits) % 2^8

/-- The channel values printed by `printColorChannelsFromRGBA`, in order. -/
def printColorChannelsFromRGBA (pixel : Nat) : List Nat :=
  [redChannel pixel, greenChannel pixel, blueChannel pixel, alphaChannel pixel]

/-- Masking with a byte mask shifted by `k` and then shifting right by `k`
extracts the byte at offset `k`. -/
theorem shift_mask_eq (p k : Nat) : (p &&& (255 <<< k)) >>> k = (p >>> k) % 256 := by
  apply Nat.eq_of_testBit_eq
  intro i
  have h255 : (255 : Nat) = 2 ^ 8 - 1 := rfl
  have h256 : (256 : Nat) = 2 ^ 8 := rfl
  rw [Nat.testBit_shiftRight, Nat.testBit_and, Nat.testBit_shiftLeft, h255, h256,
      Nat.testBit_mod_two_pow, Nat.testBit_shiftRight, Nat.testBit_two_pow_sub_one,
      Nat.add_sub_cancel_left]
  by_cases h : i < 8 <;> simp [h, Nat.le_add_right, Bool.and_comm]

theorem redChannel_eq_byte (p : Nat) : redChannel p = p / 2^24 % 2^8 := by
  have hm : redBits = 255 <<< 24 := rfl
  rw [redChannel, hm, shift_mask_eq, Nat.shiftRight_eq_div_pow]
  norm_num [Nat.mod_mod_of_dvd]

theorem greenChannel_eq_byte (p : Nat) : greenChannel p = p / 2^16 % 2^8 := by
  have hm : greenBits = 255 <<< 16 := rfl
  rw [greenChannel, hm, shift_mask_eq, Nat.shiftRight_eq_div_pow]
  norm_num [Nat.mod_mod_of_dvd]

theorem blueChannel_eq_byte (p : Nat) : blueChannel p = p / 2^8 % 2^8 := by
  have hm : blueBits = 255 <<< 8 := rfl
  rw [blueChannel, hm, shift_mask_eq, Nat.shiftRight_eq_div_pow]
  norm_num [Nat.mod_mod_of_dvd]

theorem alphaChannel_eq_byte (p : Nat) : alphaChannel p = p / 2^0 % 2^8 := by
  have hm : alphaBits = 255 <<< 0 := rfl
  have h0 : (p &&& (255 <<< 0)) >>> 0 = p &&& (255 <<< 0) := Nat.shiftRight_zero
  rw [alphaChannel, hm, ← h0, shift_mask_eq, Nat.shiftRight_zero]
  norm_num [Nat.mod_mod_of_dvd]

/-- C1: for every 32-bit value, `printColorChannelsFromRGBA` extracts the
channels by mask-then-shift with shift amounts 24, 16, 8, 0 for red, green,
blue, alpha, and each extracted channel equals the corresponding byte of
the input. -/
theorem c1_channel_extraction (pixel : Nat) (h : pixel < 2^32) :
    redChannel pixel = pixel / 2^24 % 2^8 ∧
    greenChannel pixel = pixel / 2^16 % 2^8 ∧
    blueChannel pixel = pixel / 2^8 % 2^8 ∧
    alphaChannel pixel = pixel / 2^0 % 2^8 ∧
    printColorChannelsFromRGBA pixel =
      [pixel / 2^24 % 2^8, pixel / 2^16 % 2^8, pixel / 2^8 % 2^8, pixel / 2^0 % 2^8] := by
  refine ⟨redChannel_eq_byte pixel, greenChannel_eq_byte pixel, blueChannel_eq_byte pixel,
    alphaChannel_eq_byte pixel, ?_⟩
  rw [printColorChannelsFromRGBA, redChannel_eq_byte, greenChannel_eq_byte,
      blueChannel_eq_byte, alphaChannel_eq_byte]

/-- C1 witness: the extraction claim instantiated at the documented example
pixel `0xFF7F3300`. -/
theorem c1_channel_extraction_witness :
    0xFF7F3300 < 2^32 ∧
    (redChannel 0xFF7F3300 = 0xFF7F3300 / 2^24 % 2^8 ∧
     greenChannel 0xFF7F3300 = 0xFF7F3300 / 2^16 % 2^8 ∧
     blueChannel 0xFF7F3300 = 0xFF7F3300 / 2^8 % 2^8 ∧
     alphaChannel 0xFF7F3300 = 0xFF7F3300 / 2^0 % 2^8 ∧
     printColorChannelsFromRGBA 0xFF7F3300 =
       [0xFF7F3300 / 2^24 % 2^8, 0xFF7F3300 / 2^16 % 2^8,
        0xFF7F3300 / 2^8 % 2^8, 0xFF7F3300 / 2^0 % 2^8]) :=
  ⟨by decide, c1_channel_extraction 0xFF7F3300 (by decide)⟩

/-- C4: the four channels are 8-bit values, each is a function of its own
byte of the input alone, and they recompose the input exactly. -/
theorem c4_lossless_decomposition (pixel : Nat) (h : pixel < 2^32) :
    (redChannel pixel ≤ 255 ∧ greenChannel pixel ≤ 255 ∧
     blueChannel pixel ≤ 255 ∧ alphaChannel pixel ≤ 255) ∧
    (∃ f : Nat → Nat, ∀ q : Nat, redChannel q = f (q / 2^24 % 2^8)) ∧
    (∃ f : Nat → Nat, ∀ q : Nat, greenChannel q = f (q / 2^16 % 2^8)) ∧
    (∃ f : Nat → Nat, ∀ q : Nat, blueChannel q = f (q / 2^8 % 2^8)) ∧
    (∃ f : Nat → Nat, ∀ q : Nat, alphaChannel q = f (q / 2^0 % 2^8)) ∧
    redChannel pixel * 2^24 + greenChannel pixel * 2^16 +
      blueChannel pixel * 2^8 + alphaChannel pixel = pixel := by
  refine ⟨⟨?_, ?_, ?_, ?_⟩, ⟨id, fun q => redChannel_eq_byte q⟩,
    ⟨id, fun q => greenChannel_eq_byte q⟩, ⟨id, fun q => blueChannel_eq_byte q⟩,
    ⟨id, fun q => alphaChannel_eq_byte q⟩, ?_⟩ <;>
    simp only [redChannel_eq_byte, greenChannel_eq_byte, blueChannel_eq_byte,
        alphaChannel_eq_byte] <;> omega

/-- C4 witness: the decomposition claim instantiated at `0xFF7F3300`. -/
theorem c4_lossless_decomposition_witness :
    0xFF7F3300 < 2^32 ∧
    ((redChannel 0xFF7F3300 ≤ 255 ∧ greenChannel 0xFF7F3300 ≤ 255 ∧
      blueChannel 0xFF7F3300 ≤ 255 ∧ alphaChannel 0xFF7F3300 ≤ 255) ∧
     (∃ f : Nat → Nat, ∀ q : Nat, redChannel q = f (q / 2^24 % 2^8)) ∧
     (∃ f : Nat → Nat, ∀ q : Nat, greenChannel q = f (q / 2^16 % 2^8)) ∧
     (∃ f : Nat → Nat, ∀ q : Nat, blueChannel q = f (q / 2^8 % 2^8)) ∧
     (∃ f : Nat → Nat, ∀ q : Nat, alphaChannel q = f (q / 2^0 % 2^8)) ∧
     redChannel 0xFF7F3300 * 2^24 + greenChannel 0xFF7F3300 * 2^16 +
       blueChannel 0xFF7F3300 * 2^8 + alphaChannel 0xFF7F3300 = 0xFF7F3300) :=
  ⟨by decide, c4_lossless_decomposition 0xFF7F3300 (by decide)⟩

/-! ## Bitset flag mapping (`bitset` demonstration)

The eight named boolean properties and their bit positions, exactly as
declared by the `constexpr int` locals of `bitset()`. -/

def isHungry : Nat := 0
def isSad : Nat := 1
def isMad : Nat := 2
def isHappy : Nat := 3
def isLaughing : Nat := 4
def isAsleep : Nat := 5
def isDead : Nat := 6
def isCrying : Nat := 7

/-- The bit positions of the named properties, in declaration order. -/
def bitsetPositions : List Nat :=
  [isHungry, isSad, isMad, isHappy, isLaughing, isAsleep, isDead, isCrying]

/-! The body of `bitset()`: an 8-bit `std::bitset` value is a natural
number below 256. `me.set(k)` sets bit `k`, `me.flip(k)` toggles it, and
`me.reset(k)` clears it (the mask `255 ^^^ (1 <<< k)` is the 8-bit
complement of bit `k`). The function declares `me` as a local, mutates
it, prints, and returns nothing: it has no static or global state, so a
call's behavior is the same whatever ran before it. As in the `counter`
embedding, a call takes the number of prior calls as the explicit
call-history state; `bitset()`'s body never reads it. -/

def bitset8_set (b k : Nat) : Nat := b ||| (1 <<< k)

def bitset8_flip (b k : Nat) : Nat := b ^^^ (1 <<< k)

def bitset8_reset (b k : Nat) : Nat := b &&& (255 ^^^ (1 <<< k))

/-- `me.count()`: the number of set bits of an 8-bit bitset. -/
def bitset8_count (b : Nat) : Nat :=
  ((List.range 8).filter (fun k => b.testBit k)).length

/-- `me.any()`: some bit is set. -/
def bitset8_any (b : Nat) : Bool := b != 0

/-- `me.none()`: no bit is set. -/
def bitset8_none (b : Nat) : Bool := b == 0

/-- The values `bitset()` prints on a call with `callsBefore` prior
calls: the local `me` starts at `0b0000'0101`, is set at `isHappy`,
flipped then reset at `isLaughing`, printed (pattern, the two `test`
results as `0`/`1`, `size`, `count`, `any`, `none`, `to_ulong`), and
discarded — nothing of it outlives the call, so `callsBefore` is never
read. -/
def bitsetDemo (callsBefore : Nat) : List Nat :=
  let me0 : Nat := 0b00000101
  let me1 := bitset8_set me0 isHappy
  let me2 := bitset8_flip me1 isLaughing
  let me3 := bitset8_reset me2 isLaughing
  [me3, (me3.testBit isHappy).toNat, (me3.testBit isLaughing).toNat,
   8, bitset8_count me3, (bitset8_any me3).toNat, (bitset8_none me3).toNat, me3]

/-- C5: the eight named properties map to the eight distinct positions
0–7 respectively: no two share a position and together they cover exactly
0 through 7; and the bitset is a local value used and then discarded:
`bitset()` keeps no state between calls, so its output is independent of
how many calls preceded it, always the outputs of the local `me`'s final
value 13 (`0b0000'1101`, three bits set). -/
theorem c5_bitset_positions :
    bitsetPositions = [0, 1, 2, 3, 4, 5, 6, 7] ∧
    bitsetPositions.Nodup ∧
    bitsetPositions.toFinset = Finset.range 8 ∧
    (∀ n m : Nat, bitsetDemo n = bitsetDemo m) ∧
    bitsetDemo 0 = [13, 1, 0, 8, 3, 1, 0, 13] :=
  ⟨by decide, by decide, by decide, fun n m => rfl, by decide⟩

/-! ## Four-bit left rotation (`rotl` and `rotl_bitwise`)

A `std::bitset<4>` value is a natural number below 16; shifting a
`std::bitset<4>` left discards the bit shifted off the end, hence the
`% 16`. -/

/-- The branch-based `rotl`: record bit 3, shift left by one, and set
bit 0 if the recorded bit was 1. -/
def rotl (bits : Nat) : Nat :=
  let leftbit := bits.testBit 3
  let shifted := (bits <<< 1) % 16
  if leftbit then shifted ||| 1 else shifted

/-- The bitwise `rotl_bitwise`: `(bits << 1) | (bits >> 3)` on a
4-bit bitset. -/
def rotl_bitwise (bits : Nat) : Nat :=
  ((bits <<< 1) % 16) ||| (bits >>> 3)

/-- C8: on every 4-bit input the branch-based and the bitwise rotation
agree. -/
theorem c8_rotl_eq_rotl_bitwise (bits : Nat) (h : bits < 16) :
    rotl bits = rotl_bitwise bits := by
  revert h
  revert bits
  decide

/-- C8 witness: the two rotations agree at the concrete input 13. -/
theorem c8_rotl_eq_rotl_bitwise_witness :
    13 < 16 ∧ rotl 13 = rotl_bitwise 13 :=
  ⟨by decide, c8_rotl_eq_rotl_bitwise 13 (by decide)⟩

/-! ## Operators file (`getValue` and `printCalculation`)

`getValue` prints a prompt and extracts one `int` from standard input
(`int x{}` starts zero-initialized, so an empty stream leaves 0);
`printCalculation` prints the one value `x + (y * z)`.  The expression
grammar makes the grouping of the source expression explicit. -/

/-- The prompt `getValue` writes to standard output. -/
def getValuePrompt : String := "Enter an integer: "

/-- `getValue`: the returned integer and the rest of the input stream. -/
def getValue (stdin : List Int) : Int × List Int :=
  (stdin.headD 0, stdin.tail)

/-- Arithmetic expressions, used to record the grouping of the source
expression `x + (y * z)`. -/
inductive AExp where
  | lit : Int → AExp
  | add : AExp → AExp → AExp
  | mul : AExp → AExp → AExp

def AExp.eval : AExp → Int
  | .lit n => n
  | .add a b => a.eval + b.eval
  | .mul a b => a.eval * b.eval

/-- The expression printed by `printCalculation`: `x + (y * z)`, the
product grouped inside the addition. -/
def printCalculationExpr (x y z : Int) : AExp :=
  .add (.lit x) (.mul (.lit y) (.lit z))

/-- The single value `printCalculation(x, y, z)` prints. -/
def printCalculation (x y z : Int) : Int :=
  (printCalculationExpr x y z).eval

/-- C6: `getValue` prints the prompt and returns the integer extracted
from standard input, and `printCalculation(x, y, z)` prints exactly
`x + (y * z)`, the product of `y` and `z` computed before the addition. -/
theorem c6_getValue_printCalculation :
    getValuePrompt = "Enter an integer: " ∧
    (∀ v : Int, ∀ rest : List Int, getValue (v :: rest) = (v, rest)) ∧
    (∀ x y z : Int,
      printCalculation x y z = AExp.eval (.add (.lit x) (.mul (.lit y) (.lit z))) ∧
      printCalculation x y z = x + y * z) := by
  refine ⟨rfl, fun v rest => rfl, fun x y z => ⟨rfl, rfl⟩⟩

/-! ## Static local counter (`counter` / `incrementCount`)

Each file's `counter` has a `static` local counter that persists across
calls; the embedding passes that persistent state explicitly: a call maps
the stored count before the call to the stored count after it. -/

/-- `counter` from `src/variables/data.cpp`: `count++`. -/
def counter_data (count : Int) : Int := count + 1

/-- `counter` from `src/variables/static.cpp`: `++s_count`. -/
def counter_static (s_count : Int) : Int := s_count + 1

/-- `counter` from the third copy of the example: `count++`. -/
def counter_part002 (count : Int) : Int := count + 1

/-- `incrementCount` from `src/variables/data.cpp`: three `counter()` calls. -/
def incrementCount_data (count : Int) : Int :=
  counter_data (counter_data (counter_data count))

/-- `incrementCount` from `src/variables/static.cpp`. -/
def incrementCount_static (s_count : Int) : Int :=
  counter_static (counter_static (counter_static s_count))

/-- `incrementCount` from the third copy of the example. -/
def incrementCount_part002 (count : Int) : Int :=
  counter_part002 (counter_part002 (counter_part002 count))

/-- The value of the static local `count` after `n` calls to `counter`,
starting from its initializer 0. -/
def countAfterCalls : Nat → Int
  | 0 => 0
  | n + 1 => counter_static (countAfterCalls n)

/-- C3 counterexample: `counter` is not stateless: the static count it
reads and writes persists between calls, so the count a call leaves
behind depends on how many calls preceded it (1 after no prior call,
2 after one prior call). -/
theorem c3_counterexample_static_state :
    countAfterCalls 1 = 1 ∧ countAfterCalls 2 = 2 ∧
    counter_static (countAfterCalls 0) ≠ countAfterCalls 0 := by decide

/-- C3 amended: every call to `counter` increments the persistent static
count by exactly 1 and every call to `incrementCount` increments it by
exactly 3, so the stored count after `n` calls to `counter` is `n`:
the state a call observes depends on the number of prior calls. -/
theorem c3_amended_counter_state (n : Nat) (count : Int) :
    counter_static count = count + 1 ∧
    incrementCount_static count = count + 3 ∧
    countAfterCalls n = n := by
  refine ⟨rfl, ?_, ?_⟩
  · simp [incrementCount_static, counter_static]
    omega
  · induction n with
    | zero => rfl
    | succ m ih => simp [countAfterCalls, counter_static, ih]

/-- C7: the three duplicated copies of `counter` / `incrementCount` are
pairwise behaviorally identical, and in every copy `counter` adds exactly
1 to the persistent count and `incrementCount` adds exactly 3. -/
theorem c7_duplicated_copies_equivalent (count : Int) :
    counter_data count = counter_static count ∧
    counter_static count = counter_part002 count ∧
    incrementCount_data count = incrementCount_static count ∧
    incrementCount_static count = incrementCount_part002 count ∧
    counter_data count = count + 1 ∧
    counter_static count = count + 1 ∧
    counter_part002 count = count + 1 ∧
    incrementCount_data count = count + 3 ∧
    incrementCount_static count = count + 3 ∧
    incrementCount_part002 count = count + 3 := by
  refine ⟨rfl, rfl, rfl, rfl, rfl, rfl, rfl, ?_, ?_, ?_⟩ <;>
    simp [incrementCount_data, incrementCount_static, incrementCount_part002,
      counter_data, counter_static, counter_part002] <;> omega

/-! ## Truncated modulus (`mod` in the operators file)

C++ `%` on `int` is truncated: the embedding is `Int.tmod`. -/

/-- The C++ `%` operator on `int` operands. -/
def cppMod (a b : Int) : Int := Int.tmod a b

/-- The local `a = -6 % 4` of `mod()`. -/
def mod_a : Int := cppMod (-6) 4

/-- The local `b = 6 % -4` of `mod()`. -/
def mod_b : Int := cppMod 6 (-4)

/-- The oddness test the source keeps: `(a % 2) != 0`. -/
def cppIsOdd (a : Int) : Bool := cppMod a 2 != 0

/-- The oddness test the source rejects in a comment: `(a % 2) == 1`. -/
def cppIsOddEqOne (a : Int) : Bool := cppMod a 2 == 1

/-- The truncated modulus keeps the sign of the dividend (or is zero). -/
theorem cppMod_sign (a b : Int) : cppMod a b = 0 ∨ (cppMod a b).sign = a.sign := by
  rcases a with m | m <;> rcases b with n | n
  · show Int.ofNat (m % n) = 0 ∨ (Int.ofNat (m % n)).sign = (Int.ofNat m).sign
    rcases h : m % n with _ | k
    · exact .inl rfl
    · right
      have hm : m ≠ 0 := by
        intro hm
        rw [hm, Nat.zero_mod] at h
        exact Nat.noConfusion h
      rcases Nat.exists_eq_succ_of_ne_zero hm with ⟨j, hj⟩
      rw [hj]
      rfl
  · show Int.ofNat (m % (n + 1)) = 0 ∨ (Int.ofNat (m % (n + 1))).sign = (Int.ofNat m).sign
    rcases h : m % (n + 1) with _ | k
    · exact .inl rfl
    · right
      have hm : m ≠ 0 := by
        intro hm
        rw [hm, Nat.zero_mod] at h
        exact Nat.noConfusion h
      rcases Nat.exists_eq_succ_of_ne_zero hm with ⟨j, hj⟩
      rw [hj]
      rfl
  · show -Int.ofNat ((m + 1) % n) = 0 ∨ (-Int.ofNat ((m + 1) % n)).sign = (Int.negSucc m).sign
    rcases h : (m + 1) % n with _ | k
    · exact .inl rfl
    · exact .inr rfl
  · show -Int.ofNat ((m + 1) % (n + 1)) = 0 ∨
      (-Int.ofNat ((m + 1) % (n + 1))).sign = (Int.negSucc m).sign
    rcases h : (m + 1) % (n + 1) with _ | k
    · exact .inl rfl
    · exact .inr rfl

/-- The kept oddness test is correct on every `int`. -/
theorem cppIsOdd_correct (a : Int) : cppIsOdd a = true ↔ Odd a := by
  rw [cppIsOdd, bne_iff_ne, ne_eq, Int.odd_iff]
  constructor
  · intro h
    by_contra hne
    have h0 : a % 2 = 0 := by omega
    exact h (Int.tmod_eq_zero_of_dvd (Int.dvd_of_emod_eq_zero h0))
  · intro h1 hmod
    have h2 : (2 : Int) ∣ a := Int.dvd_of_tmod_eq_zero hmod
    have h0 : a % 2 = 0 := Int.emod_eq_zero_of_dvd h2
    omega

/-- C9: `%` on `int` is truncated: the result carries the sign of the
dividend, `-6 % 4 = -2` and `6 % -4 = 2`; the test `(a % 2) != 0` decides
oddness for every `int` including negative ones, while `(a % 2) == 1`
fails on negative odd values such as `-5`. -/
theorem c9_truncated_mod (a b : Int) (hb : b ≠ 0) :
    (cppMod a b = 0 ∨ (cppMod a b).sign = a.sign) ∧
    mod_a = -2 ∧ mod_b = 2 ∧
    (cppIsOdd a = true ↔ Odd a) ∧
    (cppIsOddEqOne (-5) = false ∧ Odd (-5 : Int) ∧ (-5 : Int) < 0) :=
  ⟨cppMod_sign a b, by decide, by decide, cppIsOdd_correct a, by decide, by decide, by decide⟩

/-- C9 witness: the truncated-modulus claim instantiated at `a = -6`,
`b = 4`. -/
theorem c9_truncated_mod_witness :
    (4 : Int) ≠ 0 ∧
    ((cppMod (-6) 4 = 0 ∨ (cppMod (-6) 4).sign = (-6 : Int).sign) ∧
     mod_a = -2 ∧ mod_b = 2 ∧
     (cppIsOdd (-6) = true ↔ Odd (-6 : Int)) ∧
     (cppIsOddEqOne (-5) = false ∧ Odd (-5 : Int) ∧ (-5 : Int) < 0)) :=
  ⟨by decide, c9_truncated_mod (-6) 4 (by decide)⟩

/-! ## Signed/unsigned conversion (`unsigned_int` in `data.cpp`)

`int` and `unsigned int` are 32 bits wide.  `static_cast<unsigned int>`
reduces the signed value modulo 2^32; `static_cast<int>` (well defined
as of C++20, two's complement) maps values at least 2^31 down by 2^32. -/

/-- `static_cast<unsigned int>` applied to an `int` value. -/
def staticCastUnsigned (s : Int) : Nat := (s % 2^32).toNat

/-- `static_cast<int>` applied to an `unsigned int` value. -/
def staticCastInt (u : Nat) : Int :=
  if u < 2^31 then (u : Int) else (u : Int) - 2^32

/-- The two values `unsigned_int()` prints. -/
def unsigned_int_output : List Int :=
  [(staticCastUnsigned (-1) : Int), staticCastInt 4294967295]

/-- C10: the conversions are value-preserving modulo 2^32:
`static_cast<unsigned int>(-1)` is 4294967295, `static_cast<int>`
of 4294967295 is -1, the unsigned result always equals the signed
argument modulo 2^32, and converting back an unsigned value of at
least 2^31 subtracts 2^32. -/
theorem c10_cast_mod_2_32 (s : Int) (u : Nat) (hu : u < 2^32) (hu31 : 2^31 ≤ u) :
    staticCastUnsigned (-1) = 4294967295 ∧
    staticCastInt 4294967295 = -1 ∧
    (staticCastUnsigned s : Int) % 2^32 = s % 2^32 ∧
    staticCastInt u = (u : Int) - 2^32 := by
  refine ⟨by decide, by decide, ?_, ?_⟩
  · have hnn : (0 : Int) ≤ s % 2^32 := Int.emod_nonneg s (by norm_num)
    rw [staticCastUnsigned, Int.toNat_of_nonneg hnn, Int.emod_emod_of_dvd s dvd_rfl]
  · rw [staticCastInt, if_neg (by omega)]

/-- C10 witness: the conversion claim instantiated at `s = -1` and
`u = 3000000000`. -/
theorem c10_cast_mod_2_32_witness :
    3000000000 < 2^32 ∧ 2^31 ≤ 3000000000 ∧
    (staticCastUnsigned (-1) = 4294967295 ∧
     staticCastInt 4294967295 = -1 ∧
     (staticCastUnsigned (-1) : Int) % 2^32 = (-1 : Int) % 2^32 ∧
     staticCastInt 3000000000 = (3000000000 : Int) - 2^32) :=
  ⟨by decide, by decide, c10_cast_mod_2_32 (-1) 3000000000 (by decide) (by decide)⟩

/-! ## Cross-file data flow (`dataTypes` and `local_variables`)

`variables.cpp` declares `extern float GLOBAL_PI` and the first statement
of `dataTypes()` prints it; `GLOBAL_PI` is defined (with value 3.14) in
`data.cpp`.  `local.cpp` declares `extern int x` and `local_variables()`
prints `::x` between its two prints of the shadowing locals.  The value
of a cross-file global is a parameter of the embedding; float values are
modelled as rationals (they are only copied and printed, never computed
with). -/

/-- The initializer of `GLOBAL_PI` in `data.cpp`. -/
def GLOBAL_PI : ℚ := 3.14

/-- The values `dataTypes()` prints, as a function of the value of the
external global `GLOBAL_PI`: its only output statement is
`std::cout << GLOBAL_PI;`. -/
def dataTypesOutput (gpi : ℚ) : List ℚ := [gpi]

/-- The values `local_variables()` prints, as a function of the external
global `x`: outer local 2, inner local 3, the global `::x`, then the
outer local 2 again. -/
def local_variablesOutput (x : Int) : List Int := [2, 3, x, 2]

/-- C2 counterexample: data does flow between source files: two runs of
`dataTypes` that differ only in the value of `GLOBAL_PI` (defined in
`data.cpp`) produce different output, and likewise two runs of
`local_variables` that differ only in the global `x`. -/
theorem c2_counterexample_cross_file_flow :
    dataTypesOutput GLOBAL_PI ≠ dataTypesOutput (GLOBAL_PI + 1) ∧
    local_variablesOutput 1 ≠ local_variablesOutput 2 := by
  constructor
  · intro hco
    have : GLOBAL_PI = GLOBAL_PI + 1 := List.head_eq_of_cons_eq hco
    simp at this
  · decide

/-- C2 amended: the output of `dataTypes` does depend on `GLOBAL_PI`
(defined in `data.cpp`): it prints exactly that value, so runs with
different values of the cross-file global are distinguishable; likewise
the output of `local_variables` depends on the extern global `x`. -/
theorem c2_amended_output_depends_on_globals (g g' : ℚ) (x x' : Int)
    (hg : g ≠ g') (hx : x ≠ x') :
    dataTypesOutput g ≠ dataTypesOutput g' ∧
    local_variablesOutput x ≠ local_variablesOutput x' := by
  constructor
  · intro hco
    exact hg (List.head_eq_of_cons_eq hco)
  · intro hco
    simp [local_variablesOutput] at hco
    exact hx hco

/-- C2 amended witness: the dependence instantiated at `GLOBAL_PI` versus
`GLOBAL_PI + 1` and at `x = 1` versus `x = 2`. -/
theorem c2_amended_output_depends_on_globals_witness :
    GLOBAL_PI ≠ GLOBAL_PI + 1 ∧ (1 : Int) ≠ 2 ∧
    (dataTypesOutput GLOBAL_PI ≠ dataTypesOutput (GLOBAL_PI + 1) ∧
     local_variablesOutput 1 ≠ local_variablesOutput 2) :=
  ⟨by simp, by decide,
   c2_amended_output_depends_on_globals GLOBAL_PI (GLOBAL_PI + 1) 1 2 (by simp) (by decide)⟩

end CppNotes
